import Mathlib

/-!
Verification of the slide-deck generation pipeline (`generate_ppt.py`).

The development shallowly embeds the program: the external collaborators
(the `.env` credential file, the JSON input file, the generative-image
backend, the pre-existing files of the content store) become explicit
parameters, and the rendered presentation becomes an explicit list of
`RenderedSlide` values, following the order in which the code places
shapes into the document sink.
-/

/-- Bytes of an image, abstracted as a list of byte values. -/
abbrev Bytes := List Nat

/-- The `inline_data` attribute of a response part: carries the image bytes
(`part.inline_data.data` in the code). -/
structure InlineData where
  data : Bytes
deriving DecidableEq

/-- One part of a backend response.  `inline_data = none` models a part with
no `inline_data` attribute or a falsy one (the code's
`hasattr(part, 'inline_data') and part.inline_data` guard). -/
structure RespPart where
  inline_data : Option InlineData
deriving DecidableEq

/-- Behavior of the single `model.generate_content(prompt)` call: either it
returns a response carrying a list of parts, or it raises an exception with
a message. -/
inductive BackendResult where
  | response (parts : List RespPart)
  | raised (msg : String)
deriving DecidableEq

/-- Result of `generate_image`: the returned boolean, the file written to the
content store (path and bytes), and the list of prompts sent to the backend
(one entry per generation request issued). -/
structure GenResult where
  success : Bool
  written : Option (String × Bytes)
  calls : List String
deriving DecidableEq

/-- Scan of the response parts: the code's `for part in response.parts`
loop returns the bytes of the first part whose `inline_data` is present. -/
def findInlineData : List RespPart → Option Bytes
  | [] => none
  | p :: ps =>
    match p.inline_data with
    | some d => some d.data
    | none => findInlineData ps

/-- `generate_image(prompt, output_path, api_key)`.  The backend is a
function from prompt to `BackendResult`; exactly one request is issued.
The `if response.parts:` guard of the code is subsumed by the part scan,
which also returns `False` on an empty part list.  Any exception from the
call is caught and turned into a `False` return (`except Exception`);
on the first part with inline data the bytes are written to `output_path`
and `True` is returned; otherwise `False`. -/
def generate_image (prompt output_path api_key : String)
    (backend : String → BackendResult) : GenResult :=
  match backend prompt with
  | .raised _ => { success := false, written := none, calls := [prompt] }
  | .response parts =>
    match findInlineData parts with
    | some d =>
      { success := true, written := some (output_path, d), calls := [prompt] }
    | none => { success := false, written := none, calls := [prompt] }

/-- The `content` field of a slide object: a plain JSON string or a list of
strings (the two shapes handled by the `isinstance(content, list)` check). -/
inductive Content where
  | str (s : String)
  | list (items : List String)
deriving DecidableEq

/-- One slide object of the input JSON.  Each field is optional; the code
applies defaults at the use sites via `slide_data.get(...)`. -/
structure SlideRecord where
  title : Option String
  content : Option Content
  image_prompt : Option String
deriving DecidableEq

/-- Root shape of the parsed JSON input.  `listRoot` is a bare list of
slide objects and `dictWithSlides` an object whose `slides` key holds such
a list.  The check at line 51 is only `isinstance(data, dict) and 'slides'
in data`: it never verifies that the value is a list, so an object whose
`slides` value has another type is accepted there too — `dictSlidesString`
carries a string value (iterable, but its elements are characters, not
slide objects) and `dictSlidesNonIterable` stands for any non-iterable
value (a number, a bool, null).  `dictWithoutSlides` is an object lacking a
`slides` key; `scalarRoot` is any root that is neither a list nor an
object (e.g. a plain number): only these two shapes reach the format-error
branch at line 56. -/
inductive JsonRoot where
  | listRoot (slides : List SlideRecord)
  | dictWithSlides (slides : List SlideRecord)
  | dictSlidesString (s : String)
  | dictSlidesNonIterable
  | dictWithoutSlides
  | scalarRoot
deriving DecidableEq

/-- `get_api_key`: reads `.env` and returns its stripped contents, or `None`
when the file is missing (`FileNotFoundError`).  The argument is the file's
contents, `none` when the file does not exist. -/
def get_api_key (envFile : Option String) : Option String :=
  envFile.map String.trim

/-- Python truthiness of an optional string: `None` and `""` are falsy.
This is the test performed by `if api_key and img_prompt:`. -/
def truthyStr : Option String → Bool
  | none => false
  | some s => s != ""

/-- The decks on which the loop at line 75 iterates over slide records:
`some L` exactly when lines 47-60 leave `slides_data` bound to a list `L`
of slide objects.  `none` covers the fatal `return` paths (missing file,
object without a `slides` key, any other root shape) and also the accepted
ill-typed roots (`dictSlidesString`, `dictSlidesNonIterable`), where
`slides_data` is bound but is not a list of slide objects and the run later
dies inside the loop — see the corresponding arms of
`create_presentation`. -/
def loadSlides : Option JsonRoot → Option (List SlideRecord)
  | none => none
  | some (.listRoot s) => some s
  | some (.dictWithSlides s) => some s
  | some (.dictSlidesString _) => none
  | some .dictSlidesNonIterable => none
  | some .dictWithoutSlides => none
  | some .scalarRoot => none

/-- The per-slide image file name: `generated_images/slide_{i+1}.png` for the
0-based loop index `i`. -/
def imgFilename (i : Nat) : String :=
  "generated_images/slide_" ++ toString (i + 1) ++ ".png"

/-- The caption of the placeholder rectangle:
`f"Image Placeholder\n\nPrompt:\n{img_prompt}" if img_prompt else "No Image Prompt"`. -/
def placeholderCaption (img_prompt : String) : String :=
  if img_prompt != "" then "Image Placeholder\n\nPrompt:\n" ++ img_prompt
  else "No Image Prompt"

/-- Lines 101-107: normalize the `content` field into the text placed in the
content region.  A missing field defaults to `''`; a list is rendered as
bulleted lines joined by newlines; a plain string is used verbatim. -/
def renderContent : Option Content → String
  | none => ""
  | some (.str s) => s
  | some (.list items) =>
    String.intercalate "\n" (items.map (fun item => "• " ++ item))

/-- Lines 120-123: the image-acquisition attempt for slide `i`.  Returns the
`image_generated` flag together with the prompts sent to the backend:
`generate_image` is invoked only when the key is truthy and the prompt is
non-empty, otherwise `image_generated` stays `False` with no request. -/
def attemptOutcome (api_key : Option String) (backend : String → BackendResult)
    (i : Nat) (s : SlideRecord) : Bool × List String :=
  let img_prompt := s.image_prompt.getD ""
  if truthyStr api_key && (img_prompt != "") then
    let r := generate_image img_prompt (imgFilename i) (api_key.getD "") backend
    (r.success, r.calls)
  else (false, [])

/-- The `image_generated` flag of slide `i` under the given environment. -/
def slideImageGenerated (api_key : Option String)
    (backend : String → BackendResult) (i : Nat) (s : SlideRecord) : Bool :=
  (attemptOutcome api_key backend i s).1

/-- The visual region of a slide: either the picture placed from the image
file, or the placeholder rectangle with its caption. -/
inductive Visual where
  | image (path : String)
  | placeholder (caption : String)
deriving DecidableEq

/-- One slide as composed into the document: title text, content-region
text, visual region, and the speaker-notes text. -/
structure RenderedSlide where
  title : String
  contentText : String
  visual : Visual
  notes : String
deriving DecidableEq

/-- Lines 75-156: the body of the assembly loop for the slide at 0-based
index `i`.  `pre` tells which content-store files pre-exist from earlier
runs, so `os.path.exists(img_filename)` at line 125 holds exactly when this
run's `generate_image` wrote the file (i.e. returned `True`) or the file was
already there.  Returns the composed slide and the generation requests
issued. -/
def composeSlide (api_key : Option String) (backend : String → BackendResult)
    (pre : String → Bool) (i : Nat) (slide_data : SlideRecord) :
    RenderedSlide × List String :=
  let title := slide_data.title.getD "No Title"
  let content_text := renderContent slide_data.content
  let img_prompt := slide_data.image_prompt.getD ""
  let img_filename := imgFilename i
  let gen := attemptOutcome api_key backend i slide_data
  let image_generated := gen.1
  let file_exists := image_generated || pre img_filename
  let visual :=
    if image_generated && file_exists then Visual.image img_filename
    else Visual.placeholder (placeholderCaption img_prompt)
  ({ title := title, contentText := content_text, visual := visual,
     notes := "Image Prompt: " ++ img_prompt }, gen.2)

/-- The `for i, slide_data in enumerate(slides_data)` loop, started at index
`j`: composes every slide in order and concatenates the generation requests. -/
def renderDeck (api_key : Option String) (backend : String → BackendResult)
    (pre : String → Bool) : Nat → List SlideRecord → List RenderedSlide × List String
  | _, [] => ([], [])
  | j, s :: rest =>
    let r := composeSlide api_key backend pre j s
    let tail := renderDeck api_key backend pre (j + 1) rest
    (r.1 :: tail.1, r.2 ++ tail.2)

/-- The uncaught exceptions with which a run can die inside the assembly
loop when the accepted `slides` value is not a list of slide objects. -/
inductive PyExc where
  | attributeError
  | typeError
deriving DecidableEq

/-- The fatal diagnostics printed before the early `return` paths:
`Error: {json_file} not found.` at line 59 and `Error: Unexpected JSON
format in {json_file}` at line 56. -/
inductive Diag where
  | notFound
  | badFormat
deriving DecidableEq

/-- Outcome of a whole run: the saved artifact file name (`none` when the
run stops before saving), the fully composed slides placed into the
document, the generation requests issued, the fatal diagnostic printed (if
any), the number of `add_slide` calls performed on the document (counting
a slide added right before a crash), and the exception that escaped
`create_presentation` (if any). -/
structure RunResult where
  artifact : Option String
  slides : List RenderedSlide
  calls : List String
  diag : Option Diag
  addedSlides : Nat
  uncaught : Option PyExc
deriving DecidableEq

/-- `create_presentation(json_file, output_file_base)`.  `envFile` is the
contents of `.env` (`none` if missing), `inputRoot` the parsed input file
(`none` if missing), `backend` the generation backend, `pre` the content
store's pre-existing files, `timestamp` the formatted current time.
The missing-file and bad-root arms return right after printing their
diagnostic: no artifact, no slide work.  An object whose `slides` value is
a string passes the line-51 check with no diagnostic; `enumerate("")` runs
zero iterations, so the empty document is saved, while for a non-empty
string the first iteration performs `add_slide` and then `slide_data.get`
at line 88 raises an uncaught `AttributeError` on the character — no
artifact, one document slide added, no composed slide, no backend call.  A
non-iterable `slides` value raises an uncaught `TypeError` at `enumerate`
itself, before any slide work. -/
def create_presentation (envFile : Option String) (inputRoot : Option JsonRoot)
    (backend : String → BackendResult) (pre : String → Bool)
    (timestamp : String) (output_file_base : String) : RunResult :=
  let api_key := get_api_key envFile
  match inputRoot with
  | none =>
    { artifact := none, slides := [], calls := [], diag := some Diag.notFound,
      addedSlides := 0, uncaught := none }
  | some JsonRoot.dictWithoutSlides =>
    { artifact := none, slides := [], calls := [], diag := some Diag.badFormat,
      addedSlides := 0, uncaught := none }
  | some JsonRoot.scalarRoot =>
    { artifact := none, slides := [], calls := [], diag := some Diag.badFormat,
      addedSlides := 0, uncaught := none }
  | some (JsonRoot.listRoot slides_data) =>
    let output_file := output_file_base ++ "_" ++ timestamp ++ ".pptx"
    let rendered := renderDeck api_key backend pre 0 slides_data
    { artifact := some output_file, slides := rendered.1, calls := rendered.2,
      diag := none, addedSlides := rendered.1.length, uncaught := none }
  | some (JsonRoot.dictWithSlides slides_data) =>
    let output_file := output_file_base ++ "_" ++ timestamp ++ ".pptx"
    let rendered := renderDeck api_key backend pre 0 slides_data
    { artifact := some output_file, slides := rendered.1, calls := rendered.2,
      diag := none, addedSlides := rendered.1.length, uncaught := none }
  | some (JsonRoot.dictSlidesString s) =>
    if s = "" then
      let output_file := output_file_base ++ "_" ++ timestamp ++ ".pptx"
      { artifact := some output_file, slides := [], calls := [],
        diag := none, addedSlides := 0, uncaught := none }
    else
      { artifact := none, slides := [], calls := [], diag := none,
        addedSlides := 1, uncaught := some PyExc.attributeError }
  | some JsonRoot.dictSlidesNonIterable =>
    { artifact := none, slides := [], calls := [], diag := none,
      addedSlides := 0, uncaught := some PyExc.typeError }

/-! ### Concrete environments used to exercise the pipeline -/

/-- The sample slide of the spec's scenario:
`{title:"Intro", content:["A","B"], image_prompt:"sunrise"}`. -/
def demoSlide : SlideRecord :=
  { title := some "Intro", content := some (Content.list ["A", "B"]),
    image_prompt := some "sunrise" }

/-- A backend whose call always raises. -/
def demoBackendRaise : String → BackendResult :=
  fun _ => BackendResult.raised "boom"

/-- A backend that always answers with one part carrying image bytes. -/
def demoBackendImage : String → BackendResult :=
  fun _ => BackendResult.response [{ inline_data := some { data := [137, 80] } }]

/-- A content store with no pre-existing files. -/
def demoPreEmpty : String → Bool := fun _ => false

/-- A content store where every file pre-exists from an earlier run. -/
def demoPreAll : String → Bool := fun _ => true

/-! ### Helper lemmas -/

theorem renderDeck_length (api_key : Option String)
    (backend : String → BackendResult) (pre : String → Bool)
    (j : Nat) (L : List SlideRecord) :
    (renderDeck api_key backend pre j L).1.length = L.length := by
  induction L generalizing j with
  | nil => rfl
  | cons s rest ih => simp [renderDeck, ih]

theorem renderDeck_getElem? (api_key : Option String)
    (backend : String → BackendResult) (pre : String → Bool)
    (j i : Nat) (L : List SlideRecord) :
    (renderDeck api_key backend pre j L).1[i]? =
      (L[i]?).map (fun s => (composeSlide api_key backend pre (j + i) s).1) := by
  induction L generalizing j i with
  | nil => simp [renderDeck]
  | cons s rest ih =>
    cases i with
    | zero => simp [renderDeck]
    | succ n =>
      have harith : j + 1 + n = j + (n + 1) := by omega
      simp [renderDeck, ih (j + 1) n, harith]

theorem attemptOutcome_not_truthy (api_key : Option String)
    (backend : String → BackendResult) (i : Nat) (s : SlideRecord)
    (hk : truthyStr api_key = false) :
    attemptOutcome api_key backend i s = (false, []) := by
  simp [attemptOutcome, hk]

theorem composeSlide_visual_eq (api_key : Option String)
    (backend : String → BackendResult) (pre : String → Bool)
    (i : Nat) (s : SlideRecord) :
    (composeSlide api_key backend pre i s).1.visual =
      if slideImageGenerated api_key backend i s then Visual.image (imgFilename i)
      else Visual.placeholder (placeholderCaption (s.image_prompt.getD "")) := by
  unfold composeSlide slideImageGenerated
  cases h : (attemptOutcome api_key backend i s).1 <;> simp [h]

theorem composeSlide_not_truthy (api_key : Option String)
    (backend : String → BackendResult) (pre : String → Bool)
    (i : Nat) (s : SlideRecord) (hk : truthyStr api_key = false) :
    composeSlide api_key backend pre i s =
      ({ title := s.title.getD "No Title",
         contentText := renderContent s.content,
         visual := Visual.placeholder (placeholderCaption (s.image_prompt.getD "")),
         notes := "Image Prompt: " ++ s.image_prompt.getD "" }, []) := by
  unfold composeSlide
  rw [attemptOutcome_not_truthy api_key backend i s hk]
  rfl

theorem renderDeck_not_truthy (api_key : Option String)
    (backend : String → BackendResult) (pre : String → Bool)
    (j : Nat) (L : List SlideRecord) (hk : truthyStr api_key = false) :
    renderDeck api_key backend pre j L =
      (L.map (fun s =>
        { title := s.title.getD "No Title",
          contentText := renderContent s.content,
          visual := Visual.placeholder (placeholderCaption (s.image_prompt.getD "")),
          notes := "Image Prompt: " ++ s.image_prompt.getD "" }), []) := by
  induction L generalizing j with
  | nil => rfl
  | cons s rest ih =>
    simp [renderDeck, composeSlide_not_truthy api_key backend pre j s hk, ih (j + 1)]

theorem create_presentation_some (envFile : Option String) (root : Option JsonRoot)
    (backend : String → BackendResult) (pre : String → Bool)
    (ts base : String) (L : List SlideRecord) (h : loadSlides root = some L) :
    create_presentation envFile root backend pre ts base =
      { artifact := some (base ++ "_" ++ ts ++ ".pptx"),
        slides := (renderDeck (get_api_key envFile) backend pre 0 L).1,
        calls := (renderDeck (get_api_key envFile) backend pre 0 L).2,
        diag := none,
        addedSlides := (renderDeck (get_api_key envFile) backend pre 0 L).1.length,
        uncaught := none } := by
  cases root with
  | none => simp [loadSlides] at h
  | some r =>
    cases r with
    | listRoot L2 =>
      obtain rfl : L2 = L := by simpa [loadSlides] using h
      rfl
    | dictWithSlides L2 =>
      obtain rfl : L2 = L := by simpa [loadSlides] using h
      rfl
    | dictSlidesString s => simp [loadSlides] at h
    | dictSlidesNonIterable => simp [loadSlides] at h
    | dictWithoutSlides => simp [loadSlides] at h
    | scalarRoot => simp [loadSlides] at h

/-! ### Claims -/

/-- Claim C1: for every deck loaded from a well-formed input, the assembly
loop adds exactly one slide per slide record, in the input order, whatever
the image-acquisition outcome (any backend behavior, any key, any content
store): the i-th output slide is exactly the composition of the i-th input
record. -/
theorem c1_every_record_one_slide (envFile : Option String)
    (root : Option JsonRoot) (backend : String → BackendResult)
    (pre : String → Bool) (ts base : String) (L : List SlideRecord)
    (h : loadSlides root = some L) :
    (create_presentation envFile root backend pre ts base).slides.length = L.length ∧
    ∀ i : Nat,
      (create_presentation envFile root backend pre ts base).slides[i]? =
        (L[i]?).map (fun s => (composeSlide (get_api_key envFile) backend pre i s).1) := by
  rw [create_presentation_some envFile root backend pre ts base L h]
  refine ⟨renderDeck_length .., fun i => ?_⟩
  simpa using renderDeck_getElem? (get_api_key envFile) backend pre 0 i L

/-- Witness for C1 at a one-slide deck with a raising backend. -/
theorem c1_every_record_one_slide_witness :
    (create_presentation none (some (JsonRoot.listRoot [demoSlide]))
      demoBackendRaise demoPreEmpty "20260101_000000" "nano_banana_presentation").slides.length = 1 :=
  (c1_every_record_one_slide none (some (JsonRoot.listRoot [demoSlide]))
    demoBackendRaise demoPreEmpty "20260101_000000" "nano_banana_presentation"
    [demoSlide] rfl).1

/-- Claim C2 as stated is false: the speaker-notes text is not the bare
prompt text but the prompt prefixed with `Image Prompt: `.  Concretely, for
the sample slide with prompt `sunrise` the notes read
`Image Prompt: sunrise`, not `sunrise`. -/
theorem c2_counterexample :
    (composeSlide none demoBackendRaise demoPreEmpty 0 demoSlide).1.notes ≠ "sunrise" ∧
    (composeSlide none demoBackendRaise demoPreEmpty 0 demoSlide).1.notes =
      "Image Prompt: sunrise" := by
  constructor
  · decide
  · rfl

/-- Claim C2, amended: for every slide record, whatever the image outcome,
the speaker-notes field is written and its text equals the string
`Image Prompt: ` followed by the slide's prompt text (possibly empty). -/
theorem c2_notes_always_written (api_key : Option String)
    (backend : String → BackendResult) (pre : String → Bool)
    (i : Nat) (s : SlideRecord) :
    (composeSlide api_key backend pre i s).1.notes =
      "Image Prompt: " ++ s.image_prompt.getD "" := rfl

/-- Claim C3: content normalization.  A list of k strings renders as the k
elements each prefixed with the bullet glyph, joined by line breaks in list
order; a plain string renders unchanged. -/
theorem c3_content_normalization (api_key : Option String)
    (backend : String → BackendResult) (pre : String → Bool) (i : Nat) :
    (∀ (title prompt : Option String) (items : List String),
      (composeSlide api_key backend pre i
        { title := title, content := some (Content.list items),
          image_prompt := prompt }).1.contentText =
        String.intercalate "\n" (items.map (fun item => "• " ++ item))) ∧
    (∀ (title prompt : Option String) (str : String),
      (composeSlide api_key backend pre i
        { title := title, content := some (Content.str str),
          image_prompt := prompt }).1.contentText = str) :=
  ⟨fun _ _ _ => rfl, fun _ _ _ => rfl⟩

/-- Claim C4: visual-region branch selection.  When this run's acquisition
reports success and the file is present at render time (os.path.exists),
the image is placed; in every other case the placeholder rectangle is
rendered with the caption built from the prompt (sentinel when empty), and
the remaining slides are still processed (the loop output keeps one slide
per record). -/
theorem c4_visual_branch (api_key : Option String)
    (backend : String → BackendResult) (pre : String → Bool)
    (i : Nat) (s : SlideRecord) :
    ((slideImageGenerated api_key backend i s = true ∧
        (slideImageGenerated api_key backend i s || pre (imgFilename i)) = true) →
      (composeSlide api_key backend pre i s).1.visual = Visual.image (imgFilename i)) ∧
    (¬(slideImageGenerated api_key backend i s = true ∧
        (slideImageGenerated api_key backend i s || pre (imgFilename i)) = true) →
      (composeSlide api_key backend pre i s).1.visual =
        Visual.placeholder (placeholderCaption (s.image_prompt.getD ""))) ∧
    ∀ L : List SlideRecord, (renderDeck api_key backend pre 0 L).1.length = L.length := by
  refine ⟨?_, ?_, fun L => renderDeck_length api_key backend pre 0 L⟩
  · rintro ⟨hG, _⟩
    rw [composeSlide_visual_eq, hG]
    rfl
  · intro hn
    cases hG : slideImageGenerated api_key backend i s with
    | false => rw [composeSlide_visual_eq, hG]; rfl
    | true => exact absurd ⟨hG, by rw [hG]; rfl⟩ hn

/-- Witness for C4: with a key, a prompt and an image-bearing backend the
image branch is taken for the sample slide. -/
theorem c4_visual_branch_witness :
    (composeSlide (some "k") demoBackendImage demoPreEmpty 0 demoSlide).1.visual =
      Visual.image (imgFilename 0) :=
  (c4_visual_branch (some "k") demoBackendImage demoPreEmpty 0 demoSlide).1
    ⟨rfl, rfl⟩

/-- Claim C5: image acquisition is total over backend behavior — it issues
exactly one generation request per invocation, and when the backend call
raises, the exception is absorbed into a failure result (no propagation,
no file written). -/
theorem c5_generate_image_total (prompt output_path api_key : String)
    (backend : String → BackendResult) :
    (generate_image prompt output_path api_key backend).calls = [prompt] ∧
    ∀ msg : String,
      generate_image prompt output_path api_key (fun _ => BackendResult.raised msg) =
        { success := false, written := none, calls := [prompt] } := by
  constructor
  · cases h : backend prompt with
    | raised m => simp [generate_image, h]
    | response parts => cases hf : findInlineData parts <;> simp [generate_image, h, hf]
  · intro msg
    rfl

/-- Claim C6 as stated is false: the shape check at line 51 asks only
`isinstance(data, dict) and 'slides' in data`.  For the in-scope root
`{"slides": "ab"}` — a keyed mapping that does not contain a slides list —
no fatal diagnostic is printed and a slide is added to the document before
the run dies of an uncaught `AttributeError`: the pipeline neither reports
a format error nor halts before slide work there. -/
theorem c6_counterexample :
    (create_presentation (some "key") (some (JsonRoot.dictSlidesString "ab"))
      demoBackendImage demoPreEmpty "20260101_000000" "nano_banana_presentation").diag =
      none ∧
    (create_presentation (some "key") (some (JsonRoot.dictSlidesString "ab"))
      demoBackendImage demoPreEmpty "20260101_000000" "nano_banana_presentation").addedSlides =
      1 ∧
    (create_presentation (some "key") (some (JsonRoot.dictSlidesString "ab"))
      demoBackendImage demoPreEmpty "20260101_000000" "nano_banana_presentation").uncaught =
      some PyExc.attributeError :=
  ⟨rfl, rfl, rfl⟩

/-- Claim C6, amended: a missing input file and a root that is neither a
list nor an object with a `slides` key are fatal — the diagnostic is
printed and the run returns before any slide work, with no artifact.  An
object whose `slides` value is not a list, however, passes the shape
check: no diagnostic is printed and the run instead dies of an uncaught
exception — after the first document slide is added when the value is a
non-empty string, at the loop itself when it is not iterable — again
producing no artifact file. -/
theorem c6_fatal_or_uncaught (envFile : Option String)
    (backend : String → BackendResult) (pre : String → Bool) (ts base : String) :
    (create_presentation envFile none backend pre ts base =
      { artifact := none, slides := [], calls := [], diag := some Diag.notFound,
        addedSlides := 0, uncaught := none }) ∧
    (∀ root : Option JsonRoot,
      root = some JsonRoot.dictWithoutSlides ∨ root = some JsonRoot.scalarRoot →
      create_presentation envFile root backend pre ts base =
        { artifact := none, slides := [], calls := [], diag := some Diag.badFormat,
          addedSlides := 0, uncaught := none }) ∧
    (∀ s : String, s ≠ "" →
      create_presentation envFile (some (JsonRoot.dictSlidesString s)) backend pre ts base =
        { artifact := none, slides := [], calls := [], diag := none,
          addedSlides := 1, uncaught := some PyExc.attributeError }) ∧
    (create_presentation envFile (some JsonRoot.dictSlidesNonIterable) backend pre ts base =
      { artifact := none, slides := [], calls := [], diag := none,
        addedSlides := 0, uncaught := some PyExc.typeError }) := by
  refine ⟨rfl, ?_, ?_, rfl⟩
  · rintro root (rfl | rfl) <;> rfl
  · intro s hs
    simp [create_presentation, hs]

/-- Witness for C6 (amended): the `{"slides": "ab"}` root passes the shape
check and dies of the uncaught `AttributeError` after one slide is added,
with no artifact. -/
theorem c6_fatal_or_uncaught_witness :
    create_presentation (some "key") (some (JsonRoot.dictSlidesString "ab"))
      demoBackendImage demoPreEmpty "20260101_000000" "nano_banana_presentation" =
      { artifact := none, slides := [], calls := [], diag := none,
        addedSlides := 1, uncaught := some PyExc.attributeError } :=
  (c6_fatal_or_uncaught (some "key") demoBackendImage demoPreEmpty
    "20260101_000000" "nano_banana_presentation").2.2.1 "ab" (by decide)

/-- Claim C7: with the credential absent (`get_api_key` returned `None`), no
generation request is issued during the whole run, and every slide's visual
region is the placeholder captioned from its prompt (or the no-prompt
sentinel). -/
theorem c7_no_credential (root : Option JsonRoot)
    (backend : String → BackendResult) (pre : String → Bool) (ts base : String) :
    (create_presentation none root backend pre ts base).calls = [] ∧
    ∀ L : List SlideRecord, loadSlides root = some L →
      ∀ i : Nat,
        ((create_presentation none root backend pre ts base).slides[i]?).map
            RenderedSlide.visual =
          (L[i]?).map (fun s =>
            Visual.placeholder (placeholderCaption (s.image_prompt.getD ""))) := by
  have hk : truthyStr (get_api_key none) = false := rfl
  constructor
  · cases root with
    | none => rfl
    | some r =>
      cases r with
      | listRoot L =>
        simp [create_presentation,
          renderDeck_not_truthy (get_api_key none) backend pre 0 L hk]
      | dictWithSlides L =>
        simp [create_presentation,
          renderDeck_not_truthy (get_api_key none) backend pre 0 L hk]
      | dictSlidesString s =>
        by_cases hs : s = "" <;> simp [create_presentation, hs]
      | dictSlidesNonIterable => rfl
      | dictWithoutSlides => rfl
      | scalarRoot => rfl
  · intro L hL i
    rw [create_presentation_some none root backend pre ts base L hL]
    rw [renderDeck_not_truthy _ backend pre 0 L hk]
    cases hx : L[i]? with
    | none => simp [hx]
    | some s => simp [hx]

/-- Witness for C7: one-slide deck, absent credential, image-capable
backend — still zero calls. -/
theorem c7_no_credential_witness :
    (create_presentation none (some (JsonRoot.listRoot [demoSlide]))
      demoBackendImage demoPreEmpty "20260101_000000" "nano_banana_presentation").calls = [] :=
  (c7_no_credential (some (JsonRoot.listRoot [demoSlide])) demoBackendImage
    demoPreEmpty "20260101_000000" "nano_banana_presentation").1

/-- Claim C8: an input whose root is the bare list `L` and one whose root is
the object `{"slides": L}` produce identical run results. -/
theorem c8_root_shape_equiv (envFile : Option String)
    (backend : String → BackendResult) (pre : String → Bool)
    (ts base : String) (L : List SlideRecord) :
    create_presentation envFile (some (JsonRoot.listRoot L)) backend pre ts base =
      create_presentation envFile (some (JsonRoot.dictWithSlides L)) backend pre ts base := rfl

/-- The stripped contents of a one-space credential file are empty.  Proved
by stepping the two trimming scans by hand, since they are defined by
well-founded recursion and do not reduce. -/
theorem trim_space : " ".trim = "" := by
  have h1 : Substring.takeWhileAux " " ⟨1⟩ Char.isWhitespace ⟨0⟩ = ⟨1⟩ := by
    unfold Substring.takeWhileAux
    rw [dif_pos (by decide), if_pos (by decide)]
    unfold Substring.takeWhileAux
    rw [dif_neg (by decide)]
    decide
  have h2 : Substring.takeRightWhileAux " " ⟨1⟩ Char.isWhitespace ⟨1⟩ = ⟨1⟩ := by
    unfold Substring.takeRightWhileAux
    rw [dif_neg (by decide)]
  show (Substring.trim (String.toSubstring " ")).toString = ""
  show (Substring.toString
    ⟨" ", Substring.takeWhileAux " " ⟨1⟩ Char.isWhitespace ⟨0⟩,
      Substring.takeRightWhileAux " "
        (Substring.takeWhileAux " " ⟨1⟩ Char.isWhitespace ⟨0⟩) Char.isWhitespace ⟨1⟩⟩) = ""
  rw [h1, h2]
  decide

/-- Claim C9: a credential file that exists but whose trimmed contents are
empty behaves exactly like an absent credential: the run result is
identical to the no-credential run, and no generation request is issued. -/
theorem c9_blank_credential (w : String) (root : Option JsonRoot)
    (backend : String → BackendResult) (pre : String → Bool)
    (ts base : String) (h : w.trim = "") :
    create_presentation (some w) root backend pre ts base =
      create_presentation none root backend pre ts base ∧
    (create_presentation (some w) root backend pre ts base).calls = [] := by
  have hk : truthyStr (get_api_key (some w)) = false := by
    simp [get_api_key, truthyStr, h]
  have hk0 : truthyStr (get_api_key none) = false := rfl
  constructor
  · cases root with
    | none => rfl
    | some r =>
      cases r with
      | listRoot L =>
        rw [create_presentation_some (some w) (some (JsonRoot.listRoot L))
              backend pre ts base L rfl,
            create_presentation_some none (some (JsonRoot.listRoot L))
              backend pre ts base L rfl,
            renderDeck_not_truthy _ backend pre 0 L hk,
            renderDeck_not_truthy _ backend pre 0 L hk0]
      | dictWithSlides L =>
        rw [create_presentation_some (some w) (some (JsonRoot.dictWithSlides L))
              backend pre ts base L rfl,
            create_presentation_some none (some (JsonRoot.dictWithSlides L))
              backend pre ts base L rfl,
            renderDeck_not_truthy _ backend pre 0 L hk,
            renderDeck_not_truthy _ backend pre 0 L hk0]
      | dictSlidesString s => rfl
      | dictSlidesNonIterable => rfl
      | dictWithoutSlides => rfl
      | scalarRoot => rfl
  · cases root with
    | none => rfl
    | some r =>
      cases r with
      | listRoot L =>
        rw [create_presentation_some (some w) (some (JsonRoot.listRoot L))
              backend pre ts base L rfl]
        simp [renderDeck_not_truthy _ backend pre 0 L hk]
      | dictWithSlides L =>
        rw [create_presentation_some (some w) (some (JsonRoot.dictWithSlides L))
              backend pre ts base L rfl]
        simp [renderDeck_not_truthy _ backend pre 0 L hk]
      | dictSlidesString s =>
        by_cases hs : s = "" <;> simp [create_presentation, hs]
      | dictSlidesNonIterable => rfl
      | dictWithoutSlides => rfl
      | scalarRoot => rfl

/-- Witness for C9: a whitespace-only credential file, an image-capable
backend — zero generation calls. -/
theorem c9_blank_credential_witness :
    (create_presentation (some " ") (some (JsonRoot.listRoot [demoSlide]))
      demoBackendImage demoPreEmpty "20260101_000000" "nano_banana_presentation").calls = [] :=
  (c9_blank_credential " " (some (JsonRoot.listRoot [demoSlide]))
    demoBackendImage demoPreEmpty "20260101_000000" "nano_banana_presentation"
    trim_space).2

/-- Claim C10: a file left at `generated_images/slide_<n>.png` by an earlier
run is never placed on its own: when this run's acquisition did not report
success for that slide, the placeholder is rendered even though the file
exists on the content store. -/
theorem c10_stale_file (api_key : Option String)
    (backend : String → BackendResult) (pre : String → Bool)
    (i : Nat) (s : SlideRecord)
    (hg : slideImageGenerated api_key backend i s = false)
    (hp : pre (imgFilename i) = true) :
    (composeSlide api_key backend pre i s).1.visual =
      Visual.placeholder (placeholderCaption (s.image_prompt.getD "")) := by
  rw [composeSlide_visual_eq, hg]
  rfl

/-- Witness for C10: credential absent so acquisition never succeeds, every
store file pre-exists — the sample slide still gets the placeholder. -/
theorem c10_stale_file_witness :
    (composeSlide none demoBackendImage demoPreAll 0 demoSlide).1.visual =
      Visual.placeholder (placeholderCaption (demoSlide.image_prompt.getD "")) :=
  c10_stale_file none demoBackendImage demoPreAll 0 demoSlide rfl rfl
